import Mathlib

/-!
Verification of the aero-pi-cam capture service.

Shallow embedding of the TypeScript sources (src/upload.ts, src/sun.ts,
src/main.ts, src/overlay.ts, src/metar.ts, src/capture.ts, src/config.ts)
into Lean 4, together with theorems settling the specified properties of the
adaptive capture scheduler, the capture pipeline, the overlay compositor and
the upload retry policy.

External calls (fetch, readFileSync, the ffmpeg subprocess, the SunCalc
library, the sharp image library) are modelled as injected outcomes: an
environment record supplies, for each call site, either a returned value or a
thrown error (an Except value), and the embedded control flow is translated
statement by statement from the source.
-/

namespace AeroPiCam

/-! ## Embedding of src/upload.ts -/

/-- JSON body returned by the sink on a 201 response (interface UploadResponse). -/
structure UploadResponse where
  id : String
  received_at : String
  size_bytes : Nat
deriving Repr, DecidableEq

/-- Result record of one upload (interface UploadResult). Optional fields of
the TypeScript interface become Option. -/
structure UploadResult where
  success : Bool
  statusCode : Option Nat := none
  responseBody : Option UploadResponse := none
  error : Option String := none
deriving Repr, DecidableEq

/-- Injected outcome of a single attemptUpload call: the fetch resolved with
an HTTP status (carrying both the parseable JSON body and the error text the
injected Response would yield), the request timed out (AbortError), or a
network-level error was rethrown out of attemptUpload. -/
inductive AttemptOutcome where
  | response (status : Nat) (bodyJson : UploadResponse) (text : String)
  | timeout
  | thrown (msg : String)
deriving Repr, DecidableEq

/-- const MAX_RETRIES = 3. -/
def MAX_RETRIES : Nat := 3

/-- const INITIAL_BACKOFF_MS = 1000. -/
def INITIAL_BACKOFF_MS : Nat := 1000

/-- attemptUpload, as observed by the retry loop: a 201 response parses the
body and is a success; any other status yields a failure result carrying the
status and an HTTP error string; an abort yields a failure with no status;
other errors are rethrown (the Except error case). -/
def attemptUpload (timeoutSeconds : Nat) : AttemptOutcome → Except String UploadResult
  | .response status bodyJson text =>
      if status = 201 then
        .ok { success := true, statusCode := some status, responseBody := some bodyJson }
      else
        .ok { success := false, statusCode := some status,
              error := some ("HTTP " ++ toString status ++ ": " ++ text) }
  | .timeout =>
      .ok { success := false,
            error := some ("Request timeout after " ++ toString timeoutSeconds ++ "s") }
  | .thrown msg => .error msg

/-- The terminal-client-error test of uploadImage: result.statusCode is set,
400 <= status < 500 and status is not 429 (do not retry on client errors). -/
def isTerminalClientError (result : UploadResult) : Bool :=
  match result.statusCode with
  | some code => if 400 ≤ code ∧ code < 500 ∧ code ≠ 429 then true else false
  | none => false

/-- Observable trace of one uploadImage call: the returned result, how many
attempts were made, and the backoff sleeps performed between attempts, in
order. -/
structure UploadRun where
  result : UploadResult
  attempts : Nat
  sleeps : List Nat
deriving Repr, DecidableEq

/-- The aggregated failure returned after the retry loop exhausts all
attempts, carrying the last underlying error. -/
def aggregatedFailure (lastError : Option String) : UploadResult :=
  { success := false,
    error := some ("All " ++ toString MAX_RETRIES ++ " upload attempts failed. Last error: "
      ++ lastError.getD "undefined") }

/-- The for loop of uploadImage. attempt is the 1-based loop counter;
remaining is the number of loop iterations still allowed
(MAX_RETRIES - attempt + 1); lastError and the accumulated (reversed) sleep
list thread through. Outcome of the k-th attempt is outcomes (k - 1). The
catch branch around the attempt records a thrown error as lastError and
continues, translating the try/catch inside the loop body. -/
def uploadLoop (timeoutSeconds : Nat) (outcomes : Nat → AttemptOutcome) :
    Nat → Nat → Option String → List Nat → UploadRun
  | attempt, 0, lastError, sleeps =>
      { result := aggregatedFailure lastError, attempts := attempt - 1,
        sleeps := sleeps.reverse }
  | attempt, remaining + 1, _lastError, sleeps =>
      match attemptUpload timeoutSeconds (outcomes (attempt - 1)) with
      | .ok result =>
          if result.success then
            { result := result, attempts := attempt, sleeps := sleeps.reverse }
          else if isTerminalClientError result then
            { result := result, attempts := attempt, sleeps := sleeps.reverse }
          else if attempt < MAX_RETRIES then
            uploadLoop timeoutSeconds outcomes (attempt + 1) remaining result.error
              (INITIAL_BACKOFF_MS * 2 ^ (attempt - 1) :: sleeps)
          else
            uploadLoop timeoutSeconds outcomes (attempt + 1) remaining result.error sleeps
      | .error msg =>
          if attempt < MAX_RETRIES then
            uploadLoop timeoutSeconds outcomes (attempt + 1) remaining (some msg)
              (INITIAL_BACKOFF_MS * 2 ^ (attempt - 1) :: sleeps)
          else
            uploadLoop timeoutSeconds outcomes (attempt + 1) remaining (some msg) sleeps

/-- uploadImage: run the retry loop from attempt 1 with MAX_RETRIES
iterations available, no last error and no sleeps yet. Totality of this
function is the embedded form of the fact that uploadImage always resolves
to an UploadResult and never rejects: every thrown attempt error is consumed
by the catch branch of uploadLoop. -/
def uploadImage (timeoutSeconds : Nat) (outcomes : Nat → AttemptOutcome) : UploadRun :=
  uploadLoop timeoutSeconds outcomes 1 MAX_RETRIES none []

/-- Pads a finite list of injected outcomes into an outcome function; reading
past the end of the injected script yields a sentinel thrown error, so a run
that is claimed to stop early would expose any extra attempt. -/
def outcomesOf (l : List AttemptOutcome) : Nat → AttemptOutcome :=
  fun n => l.getD n (.thrown "no injected outcome")

/-- The retryable classification stated by the spec: status 429, any 5xx,
network-level errors (thrown), and timeouts are retryable. -/
def retryableInjectedOutcome : AttemptOutcome → Bool
  | .response status _ _ => if status = 429 ∨ 500 ≤ status then true else false
  | .timeout => true
  | .thrown _ => true

/-! ## Embedding of src/sun.ts -/

/-- LocationConfig from src/config.ts (coordinates as rationals; the name and
timezone fields play no role in the verified properties beyond the name). -/
structure LocationConfig where
  name : String
  latitude : Rat
  longitude : Rat
deriving Repr, DecidableEq

/-- interface SunTimes; instants are milliseconds since the epoch, the
ordering used by the JavaScript Date comparisons. -/
structure SunTimes where
  sunrise : Int
  sunset : Int
deriving Repr, DecidableEq

/-- getSunTimes delegates to the external SunCalc library, modelled as a
function calc from (date, latitude, longitude) to the two instants. -/
def getSunTimes (suncalc : Int → Rat → Rat → SunTimes) (date : Int)
    (location : LocationConfig) : SunTimes :=
  suncalc date location.latitude location.longitude

/-- isDay: date >= times.sunrise && date < times.sunset. -/
def isDay (suncalc : Int → Rat → Rat → SunTimes) (date : Int)
    (location : LocationConfig) : Bool :=
  let times := getSunTimes suncalc date location
  decide (times.sunrise ≤ date) && decide (date < times.sunset)

/-- getNextCaptureInterval: the day interval when isDay holds, else the night
interval. -/
def getNextCaptureInterval (suncalc : Int → Rat → Rat → SunTimes) (date : Int)
    (location : LocationConfig) (dayIntervalMinutes nightIntervalMinutes : Nat) : Nat :=
  if isDay suncalc date location then dayIntervalMinutes else nightIntervalMinutes

/-! ## Embedding of the scheduler in src/main.ts -/

/-- ScheduleConfig from src/config.ts. -/
structure ScheduleConfig where
  day_interval_minutes : Nat
  night_interval_minutes : Nat
deriving Repr, DecidableEq

/-- The armed cron tasks of main.ts. currentSchedule is the module-level
variable holding the capture task (identified by its every-N-minutes
period); the transition-check tasks created by cron.schedule inside
scheduleTransitionCheck are never stored or stopped, so the state keeps
their count. -/
structure SchedulerState where
  currentSchedule : Option Nat
  transitionTasks : Nat
deriving Repr, DecidableEq

/-- scheduleTransitionCheck: registers one more cron task firing every 5
minutes; the task handle is discarded, so the armed count only grows. -/
def scheduleTransitionCheck (st : SchedulerState) : SchedulerState :=
  { st with transitionTasks := st.transitionTasks + 1 }

/-- scheduleNextCapture: recompute the day/night interval for now, stop the
existing capture schedule if any, arm a new capture task with the fresh
interval, then call scheduleTransitionCheck. -/
def scheduleNextCapture (suncalc : Int → Rat → Rat → SunTimes)
    (location : LocationConfig) (schedule : ScheduleConfig) (now : Int)
    (st : SchedulerState) : SchedulerState :=
  let isDayTime := isDay suncalc now location
  let intervalMinutes :=
    if isDayTime then schedule.day_interval_minutes else schedule.night_interval_minutes
  let st1 := { st with currentSchedule := some intervalMinutes }
  scheduleTransitionCheck st1

/-- The body of one transition-check tick: if a capture schedule is armed,
re-evaluate and reschedule via scheduleNextCapture. -/
def transitionCheckTick (suncalc : Int → Rat → Rat → SunTimes)
    (location : LocationConfig) (schedule : ScheduleConfig) (now : Int)
    (st : SchedulerState) : SchedulerState :=
  if st.currentSchedule.isSome then
    scheduleNextCapture suncalc location schedule now st
  else st

/-- State before main() arms anything: currentSchedule = null, no
transition-check task registered yet. -/
def initialSchedulerState : SchedulerState :=
  { currentSchedule := none, transitionTasks := 0 }

/-! ## Embedding of the capture cycle in src/main.ts -/

/-- Raw image bytes, identified abstractly; only identity of buffers matters
to the verified properties. -/
abbrev ImageBuffer := Nat

/-- CaptureResult from src/capture.ts, as consumed by main.ts. -/
structure CaptureResult where
  success : Bool
  image : Option ImageBuffer := none
  error : Option String := none
deriving Repr, DecidableEq

/-- Abstract handle for the parsed METAR record; the overlay text derived
from it by formatMetarOverlay plays no role in the verified properties. -/
abbrev MetarData := Nat

/-- MetarResult from src/metar.ts. -/
structure MetarResult where
  success : Bool
  data : Option MetarData := none
  error : Option String := none
  retryAfterSeconds : Option Nat := none
deriving Repr, DecidableEq

/-- The side-effecting calls a capture cycle can make, in the order they are
issued: the ffmpeg capture, the METAR fetch, the overlay compositing on a
base image, and the upload of a final image. -/
inductive Effect where
  | captureCall
  | metarCall (icaoCode : String)
  | overlayCall (base : ImageBuffer)
  | uploadCall (image : ImageBuffer)
deriving Repr, DecidableEq

/-- Injected outcomes for the external calls of one cycle. Each call site may
either return a value or throw (the Except error case), covering unexpected
exceptions as well as the structured failure results. -/
structure CycleEnv where
  metarEnabled : Bool
  icaoCode : String
  captureOutcome : Except String CaptureResult
  metarOutcome : Except String MetarResult
  overlayOutcome : Except String ImageBuffer
  uploadOutcome : Except String UploadResult
deriving Repr

/-- Observable outcome of one captureAndUpload invocation: the value of the
isRunning flag after the call returns, and the external calls performed. -/
structure CycleRun where
  isRunning : Bool
  effects : List Effect
deriving Repr, DecidableEq

/-- The try block of captureAndUpload, translated statement by statement.
Returns the effects performed and either normal completion or the error that
escaped to the outer catch. A capture failure logs and returns early; a METAR
fetch failure or missing data proceeds without overlay; an overlay exception
is caught by the inner catch and the original image is kept; the upload is
always reached on every one of those paths. -/
def runCycleBody (env : CycleEnv) : List Effect × Except String Unit :=
  match env.captureOutcome with
  | .error e => ([.captureCall], .error e)
  | .ok captureResult =>
    if !captureResult.success || captureResult.image.isNone then
      ([.captureCall], .ok ())
    else
      match captureResult.image with
      | none => ([.captureCall], .ok ())
      | some imageBuffer0 =>
        let metarStep : List Effect × Except String ImageBuffer :=
          if env.metarEnabled then
            match env.metarOutcome with
            | .error e => ([.metarCall env.icaoCode], .error e)
            | .ok metarResult =>
              if metarResult.success && metarResult.data.isSome then
                match env.overlayOutcome with
                | .ok overlaid =>
                    ([.metarCall env.icaoCode, .overlayCall imageBuffer0], .ok overlaid)
                | .error _ =>
                    ([.metarCall env.icaoCode, .overlayCall imageBuffer0], .ok imageBuffer0)
              else
                ([.metarCall env.icaoCode], .ok imageBuffer0)
          else
            ([], .ok imageBuffer0)
        match metarStep with
        | (effs, .error e) => (Effect.captureCall :: effs, .error e)
        | (effs, .ok imageBuffer) =>
          match env.uploadOutcome with
          | .ok _ =>
              (Effect.captureCall :: (effs ++ [Effect.uploadCall imageBuffer]), .ok ())
          | .error e =>
              (Effect.captureCall :: (effs ++ [Effect.uploadCall imageBuffer]), .error e)

/-- captureAndUpload: if isRunning, log and return at once; otherwise set
isRunning, run the cycle body inside try/catch, and clear isRunning in the
finally block on every exit path, normal or thrown. -/
def captureAndUpload (env : CycleEnv) (isRunning : Bool) : CycleRun :=
  if isRunning then
    { isRunning := isRunning, effects := [] }
  else
    let body := runCycleBody env
    { isRunning := false, effects := body.fst }

/-- Position of an effect in the pipeline order, for stating the strict
capture, weather, overlay, upload ordering. -/
def effectStage : Effect → Nat
  | .captureCall => 0
  | .metarCall _ => 1
  | .overlayCall _ => 2
  | .uploadCall _ => 3

/-! ## Embedding of src/overlay.ts -/

/-- The four corner anchors of MetarConfig.overlay_position. -/
inductive OverlayPosition where
  | topLeft
  | topRight
  | bottomLeft
  | bottomRight
deriving Repr, DecidableEq

/-- The sharp gravity values used for compositing. -/
inductive Gravity where
  | northwest
  | northeast
  | southwest
  | southeast
deriving Repr, DecidableEq

/-- positionToGravity: the corner-to-gravity mapping table. -/
def positionToGravity : OverlayPosition → Gravity
  | .topLeft => .northwest
  | .topRight => .northeast
  | .bottomLeft => .southwest
  | .bottomRight => .southeast

/-- Icon side within the badge. -/
inductive IconPosition where
  | left
  | right
deriving Repr, DecidableEq

/-- The icon object of MetarConfig: optional inline SVG markup, local path
and remote URL sources, plus size and side. -/
structure IconConfig where
  url : Option String := none
  path : Option String := none
  svg : Option String := none
  size : Option Nat := none
  position : IconPosition := .left
deriving Repr, DecidableEq

/-- MetarConfig from src/config.ts. -/
structure MetarConfig where
  enabled : Bool
  icao_code : String
  overlay_position : OverlayPosition
  font_size : Nat
  font_color : String
  background_color : String
  icon : Option IconConfig := none
deriving Repr, DecidableEq

/-- Injected filesystem and network for the overlay module: readFileSync may
return file contents or throw, and fetch may resolve with an ok flag, a
status and a body text, or reject. -/
structure OverlayEnv where
  readFileSync : String → Except String String
  fetchText : String → Except String (Bool × Nat × String)

/-- wrapSvgWithSize: re-wraps SVG markup at the requested pixel size. The
source strips width, height and viewBox attributes and the outer svg tags
with regular expressions before wrapping; that textual cleaning is not
observable by any verified property, so the cleaned content is modelled as
the raw content placed inside the sized wrapper. -/
def wrapSvgWithSize (svgContent : String) (width height : Nat) : String :=
  "<svg width=" ++ toString width ++ " height=" ++ toString height ++ ">"
    ++ svgContent ++ "</svg>"

/-- loadIcon: no icon object yields null. The inline svg source is used
first, else the local path is read with readFileSync (a read error
propagates: there is no try/catch in loadIcon), else the url is fetched (a
rejected fetch propagates; a resolved response that is not ok logs a warning
and yields null). A resolved source is re-wrapped at the configured size
(default 24). No configured source yields null. -/
def loadIcon (env : OverlayEnv) : Option IconConfig → Except String (Option String)
  | none => Except.ok none
  | some config =>
    let size := config.size.getD 24
    match config.svg with
    | some svgContent => Except.ok (some (wrapSvgWithSize svgContent size size))
    | none =>
      match config.path with
      | some p =>
        match env.readFileSync p with
        | .ok svgContent => Except.ok (some (wrapSvgWithSize svgContent size size))
        | .error e => Except.error e
      | none =>
        match config.url with
        | some u =>
          match env.fetchText u with
          | .ok resp =>
              if !resp.fst then Except.ok none
              else Except.ok (some (wrapSvgWithSize resp.snd.snd size size))
          | .error e => Except.error e
        | none => Except.ok none

/-- escapeXml: entity-escape the five XML special characters. -/
def escapeXml (text : String) : String :=
  ((((text.replace "&" "&amp;").replace "<" "&lt;").replace ">" "&gt;").replace
      "\x22" "&quot;").replace "\x27" "&apos;"

/-- The composited result of addTextOverlay, structurally: the base image the
badge is drawn on (pixel dimensions unchanged), the badge geometry, the
escaped badge text, the embedded icon markup when one was resolved, and the
corner gravity. The final jpeg re-encoding at quality 90 is not modelled. -/
structure OverlaidImage where
  base : ImageBuffer
  boxWidth : Rat
  boxHeight : Nat
  iconX : Rat
  iconY : Rat
  textX : Rat
  text : String
  icon : Option String
  gravity : Gravity
deriving Repr, DecidableEq

/-- addTextOverlay: compute the badge geometry from the text length, font
size and icon size, load the icon (a loadIcon error propagates out of
addTextOverlay: the call is not wrapped in try/catch), then composite the
badge onto the base image at the configured corner. baseWidth is the width
field of the sharp metadata of the input image (undefined falls back to
1920). -/
def addTextOverlay (env : OverlayEnv) (imageBuffer : ImageBuffer)
    (baseWidth : Option Nat) (text : String) (config : MetarConfig) :
    Except String OverlaidImage :=
  let width := baseWidth.getD 1920
  let padding : Nat := 10
  let lineHeight := config.font_size + 4
  let iconSize := (config.icon.bind (fun i => i.size)).getD 24
  let iconSpacing : Nat := if config.icon.isSome then iconSize + 8 else 0
  let estimatedTextWidth : Rat := (text.length : Rat) * ((config.font_size : Rat) * (3 / 5))
  let boxWidth : Rat :=
    min (estimatedTextWidth + (padding : Rat) * 2 + (iconSpacing : Rat)) ((width : Rat) - 20)
  let boxHeight : Nat := max (lineHeight + padding * 2) (iconSize + padding * 2)
  match loadIcon env config.icon with
  | .error e => Except.error e
  | .ok iconBuffer =>
    let iconX : Rat :=
      if (config.icon.map (fun i => i.position)) = some IconPosition.right then
        boxWidth - (iconSize : Rat) - (padding : Rat)
      else (padding : Rat)
    let iconY : Rat := ((boxHeight : Rat) - (iconSize : Rat)) / 2
    let textX : Rat :=
      if (config.icon.map (fun i => i.position)) = some IconPosition.left then
        (iconSize : Rat) + (padding : Rat) + 4
      else (padding : Rat)
    Except.ok
      { base := imageBuffer, boxWidth := boxWidth, boxHeight := boxHeight,
        iconX := iconX, iconY := iconY, textX := textX,
        text := escapeXml text, icon := iconBuffer,
        gravity := positionToGravity config.overlay_position }

/-! ## Concrete fixtures used to instantiate the theorems -/

/-- A sun calculator placing sunrise at instant 0 and sunset at instant
3600000 for every date and location. -/
def suncalcW : Int → Rat → Rat → SunTimes :=
  fun _ _ _ => { sunrise := 0, sunset := 3600000 }

/-- The location of the end-to-end scenario: (48.93, -0.15). -/
def locationW : LocationConfig :=
  { name := "LFAS", latitude := 4893 / 100, longitude := -3 / 20 }

/-- A schedule of 10 day minutes and 30 night minutes. -/
def scheduleW : ScheduleConfig :=
  { day_interval_minutes := 10, night_interval_minutes := 30 }

/-- A scheduler state with an armed capture task of period 30 and one armed
transition-check task. -/
def stateW : SchedulerState := { currentSchedule := some 30, transitionTasks := 1 }

/-- The 201 response body used by the upload fixtures. -/
def bodyW : UploadResponse :=
  { id := "test-uuid", received_at := "2026-01-02T15:30:05Z", size_bytes := 245000 }

/-- Injected 500 response. -/
def out500 : AttemptOutcome := .response 500 bodyW "Internal Server Error"

/-- Injected 201 response. -/
def out201 : AttemptOutcome := .response 201 bodyW "Created"

/-- Injected 400 response. -/
def out400 : AttemptOutcome := .response 400 bodyW "Bad Request"

/-- A capture-cycle environment where capture succeeds with image 7, the
METAR fetch succeeds, the overlay compositing throws, and the upload
succeeds. -/
def cycleEnvW : CycleEnv :=
  { metarEnabled := true, icaoCode := "LFRK",
    captureOutcome := .ok { success := true, image := some 7 },
    metarOutcome := .ok { success := true, data := some 1 },
    overlayOutcome := .error "sharp compositing failed",
    uploadOutcome := .ok { success := true, statusCode := some 201, responseBody := some bodyW } }

/-- An overlay environment whose filesystem refuses every read and whose
network rejects every fetch. -/
def overlayEnvThrowing : OverlayEnv :=
  { readFileSync := fun _ => Except.error "EACCES: permission denied",
    fetchText := fun _ => Except.error "fetch failed" }

/-- An overlay environment whose network resolves every fetch with a 404. -/
def overlayEnvNotFound : OverlayEnv :=
  { readFileSync := fun _ => Except.error "ENOENT: no such file or directory",
    fetchText := fun _ => Except.ok (false, 404, "Not Found") }

/-- A METAR config whose icon is sourced from a local path. -/
def metarCfgPathIcon : MetarConfig :=
  { enabled := true, icao_code := "LFRK", overlay_position := .bottomLeft,
    font_size := 16, font_color := "white", background_color := "black",
    icon := some { path := some "/opt/icons/wind.svg" } }

/-- A METAR config whose icon is sourced from a remote URL. -/
def metarCfgUrlIcon : MetarConfig :=
  { enabled := true, icao_code := "LFRK", overlay_position := .bottomLeft,
    font_size := 16, font_color := "white", background_color := "black",
    icon := some { url := some "https://example.com/wind.svg" } }

/-! ## Theorems -/

/-- C1: for every injected environment, a captureAndUpload invocation that
starts a cycle sees the busy flag false immediately before it and leaves it
false after returning, on every exit path (capture failure, METAR failure,
overlay exception, upload failure or exception, normal completion), and an
invocation that finds the flag set leaves it set for the in-flight cycle. -/
theorem busy_flag_released_on_every_exit_path (env : CycleEnv) :
    (captureAndUpload env false).isRunning = false ∧
    (captureAndUpload env true).isRunning = true := by
  exact ⟨rfl, rfl⟩

/-- C6: when a cycle is already in flight, captureAndUpload returns at once
with the flag unchanged and an empty effect list: no I/O happens and in
particular the external capturer is not invoked a second time. -/
theorem busy_skip_performs_no_io (env : CycleEnv) :
    captureAndUpload env true = { isRunning := true, effects := [] } ∧
    Effect.captureCall ∉ (captureAndUpload env true).effects := by
  refine ⟨rfl, ?_⟩
  simp [captureAndUpload]

/-- C8: for every (date, latitude, longitude) and every sun calculator, isDay
is true exactly when sunrise <= date < sunset for the times computed from
that same tuple; an instant equal to the sunrise it induces (and before the
sunset) is day, and an instant equal to the sunset it induces is night. -/
theorem isDay_iff_between_sunrise_and_sunset
    (suncalc : Int → Rat → Rat → SunTimes) (date : Int) (location : LocationConfig) :
    (isDay suncalc date location = true ↔
      (getSunTimes suncalc date location).sunrise ≤ date ∧
        date < (getSunTimes suncalc date location).sunset) ∧
    ((getSunTimes suncalc date location).sunrise = date →
      date < (getSunTimes suncalc date location).sunset →
      isDay suncalc date location = true) ∧
    ((getSunTimes suncalc date location).sunset = date →
      isDay suncalc date location = false) := by
  refine ⟨?_, ?_, ?_⟩
  · simp [isDay]
  · intro hsr hlt
    simp [isDay, hsr.le, hlt]
  · intro hss
    simp [isDay, hss, lt_self_iff_false]

/-- Witness for C8 at a concrete calculator with sunrise 0 and sunset
3600000: the instant 3600000, equal to the sunset computed for it, is
classified as night. -/
theorem isDay_iff_between_sunrise_and_sunset_witness :
    isDay suncalcW 3600000 locationW = false :=
  (isDay_iff_between_sunrise_and_sunset suncalcW 3600000 locationW).2.2 rfl

/-- C7: whenever the schedule is recomputed, the armed capture interval
equals the day interval exactly when isDay holds at that instant (this is
getNextCaptureInterval), and a transition-check tick taken while a capture
task is armed re-arms it with the interval matching the fresh day/night
state, so a flip switches the interval before the next capture fires. -/
theorem scheduler_interval_matches_day_state
    (suncalc : Int → Rat → Rat → SunTimes) (location : LocationConfig)
    (schedule : ScheduleConfig) (now : Int) (st : SchedulerState) :
    (scheduleNextCapture suncalc location schedule now st).currentSchedule =
      some (getNextCaptureInterval suncalc now location
        schedule.day_interval_minutes schedule.night_interval_minutes) ∧
    (st.currentSchedule.isSome = true →
      (transitionCheckTick suncalc location schedule now st).currentSchedule =
        some (if isDay suncalc now location then schedule.day_interval_minutes
          else schedule.night_interval_minutes)) := by
  constructor
  · simp [scheduleNextCapture, scheduleTransitionCheck, getNextCaptureInterval]
  · intro h
    simp [transitionCheckTick, h, scheduleNextCapture, scheduleTransitionCheck]

/-- Witness for C7: a tick at instant 0 (daytime under suncalcW) on a state
armed with the night interval 30 re-arms the capture task with the day
interval 10. -/
theorem scheduler_interval_matches_day_state_witness :
    (transitionCheckTick suncalcW locationW scheduleW 0 stateW).currentSchedule = some 10 := by
  have h := (scheduler_interval_matches_day_state suncalcW locationW scheduleW 0 stateW).2 rfl
  rw [h]
  rfl

/-- C3 is violated by the code: scheduleNextCapture registers a fresh
transition-check cron task on every call and never cancels the previous one,
and each transition-check tick calls scheduleNextCapture, so after startup
there is one armed transition-check task and after the first tick there are
two (the count keeps growing on later ticks), where the claim requires
exactly one at every point after startup. -/
theorem transition_check_timer_duplicates :
    (scheduleNextCapture suncalcW locationW scheduleW 0 initialSchedulerState).transitionTasks
      = 1 ∧
    (transitionCheckTick suncalcW locationW scheduleW 300000
      (scheduleNextCapture suncalcW locationW scheduleW 0
        initialSchedulerState)).transitionTasks = 2 := by
  exact ⟨rfl, rfl⟩

/-- C5: within one cycle the side effects occur strictly in the order
capture, weather fetch, overlay, upload (each at most once); a capture
failure (thrown or reported) ends the cycle after the single capture call
with no overlay and no upload and no second capture call; a weather fetch
failure skips only the overlay, and an overlay exception is absorbed, the
upload running in both cases with the pre-overlay image. -/
theorem cycle_side_effect_order_and_fallback (env : CycleEnv) :
    List.Pairwise (fun a b => effectStage a < effectStage b)
      (captureAndUpload env false).effects ∧
    (∀ e, env.captureOutcome = .error e →
      (captureAndUpload env false).effects = [Effect.captureCall]) ∧
    (∀ c, env.captureOutcome = .ok c → (!c.success || c.image.isNone) = true →
      (captureAndUpload env false).effects = [Effect.captureCall]) ∧
    (∀ c img m, env.captureOutcome = .ok c → c.success = true → c.image = some img →
      env.metarEnabled = true → env.metarOutcome = .ok m →
      (m.success && m.data.isSome) = false →
      (captureAndUpload env false).effects =
        [Effect.captureCall, Effect.metarCall env.icaoCode, Effect.uploadCall img]) ∧
    (∀ c img m e, env.captureOutcome = .ok c → c.success = true → c.image = some img →
      env.metarEnabled = true → env.metarOutcome = .ok m →
      (m.success && m.data.isSome) = true → env.overlayOutcome = .error e →
      (captureAndUpload env false).effects =
        [Effect.captureCall, Effect.metarCall env.icaoCode, Effect.overlayCall img,
          Effect.uploadCall img]) := by
  rcases env with ⟨me, icao, co, mo, oo, uo⟩
  refine ⟨?_, ?_, ?_, ?_, ?_⟩
  · rcases co with e | c
    · simp [captureAndUpload, runCycleBody, effectStage]
    · rcases c with ⟨s, imgo, erro⟩
      cases s
      · simp [captureAndUpload, runCycleBody, effectStage]
      · rcases imgo with _ | img
        · simp [captureAndUpload, runCycleBody, effectStage]
        · cases me
          · rcases uo with eu | ur <;>
              simp [captureAndUpload, runCycleBody, effectStage]
          · rcases mo with em | m
            · simp [captureAndUpload, runCycleBody, effectStage]
            · by_cases hm : (m.success && m.data.isSome) = true
              · rcases oo with eo | ov <;> rcases uo with eu | ur <;>
                  simp [captureAndUpload, runCycleBody, hm, effectStage]
              · rcases uo with eu | ur <;>
                  simp [captureAndUpload, runCycleBody, hm, effectStage]
  · intro e hco
    subst hco
    simp [captureAndUpload, runCycleBody]
  · intro c hco hfail
    subst hco
    simp only [captureAndUpload, runCycleBody]
    simp [hfail]
  · intro c img m hco hs himg hme hmo hm
    subst hco
    subst hmo
    subst hme
    rcases uo with eu | ur <;>
      simp [captureAndUpload, runCycleBody, hs, himg, hm]
  · intro c img m e hco hs himg hme hmo hm hoo
    subst hco
    subst hmo
    subst hme
    subst hoo
    rcases uo with eu | ur <;>
      simp [captureAndUpload, runCycleBody, hs, himg, hm]

/-- Witness for C5 at a concrete environment where capture succeeds with
image 7, the METAR fetch succeeds, and the overlay compositing throws: the
cycle still uploads, using the pre-overlay image 7. -/
theorem cycle_side_effect_order_and_fallback_witness :
    (captureAndUpload cycleEnvW false).effects =
      [Effect.captureCall, Effect.metarCall "LFRK", Effect.overlayCall 7,
        Effect.uploadCall 7] :=
  (cycle_side_effect_order_and_fallback cycleEnvW).2.2.2.2
    { success := true, image := some 7 } 7 { success := true, data := some 1 }
    "sharp compositing failed" rfl rfl rfl rfl rfl rfl rfl

/-- Unfolding of the first loop iteration of uploadImage: attempt 1 with
three iterations available; a retryable failure sleeps 1000 ms
(INITIAL_BACKOFF_MS times 2 to the 0) before attempt 2. -/
theorem uploadLoop_step1 (t : Nat) (outs : Nat → AttemptOutcome)
    (le : Option String) (sl : List Nat) :
    uploadLoop t outs 1 3 le sl =
      match attemptUpload t (outs 0) with
      | .ok result =>
          if result.success then { result := result, attempts := 1, sleeps := sl.reverse }
          else if isTerminalClientError result then
            { result := result, attempts := 1, sleeps := sl.reverse }
          else uploadLoop t outs 2 2 result.error (1000 :: sl)
      | .error msg => uploadLoop t outs 2 2 (some msg) (1000 :: sl) := by
  rfl

/-- Unfolding of the second loop iteration: a retryable failure sleeps 2000
ms (INITIAL_BACKOFF_MS times 2 to the 1) before attempt 3. -/
theorem uploadLoop_step2 (t : Nat) (outs : Nat → AttemptOutcome)
    (le : Option String) (sl : List Nat) :
    uploadLoop t outs 2 2 le sl =
      match attemptUpload t (outs 1) with
      | .ok result =>
          if result.success then { result := result, attempts := 2, sleeps := sl.reverse }
          else if isTerminalClientError result then
            { result := result, attempts := 2, sleeps := sl.reverse }
          else uploadLoop t outs 3 1 result.error (2000 :: sl)
      | .error msg => uploadLoop t outs 3 1 (some msg) (2000 :: sl) := by
  rfl

/-- Unfolding of the third and last loop iteration: no backoff follows the
final attempt, and a retryable failure there yields the aggregated
failure. -/
theorem uploadLoop_step3 (t : Nat) (outs : Nat → AttemptOutcome)
    (le : Option String) (sl : List Nat) :
    uploadLoop t outs 3 1 le sl =
      match attemptUpload t (outs 2) with
      | .ok result =>
          if result.success then { result := result, attempts := 3, sleeps := sl.reverse }
          else if isTerminalClientError result then
            { result := result, attempts := 3, sleeps := sl.reverse }
          else { result := aggregatedFailure result.error, attempts := 3, sleeps := sl.reverse }
      | .error msg =>
          { result := aggregatedFailure (some msg), attempts := 3, sleeps := sl.reverse } := by
  rfl

/-- The loop always stops at the third attempt. -/
theorem uploadLoop3_attempts (t : Nat) (outs : Nat → AttemptOutcome)
    (le : Option String) (sl : List Nat) :
    (uploadLoop t outs 3 1 le sl).attempts = 3 := by
  rw [uploadLoop_step3]
  rcases h2 : attemptUpload t (outs 2) with m2 | r2
  · rfl
  · by_cases hs : r2.success <;> by_cases ht : isTerminalClientError r2 <;> simp [hs, ht]

/-- A run that reaches attempt 2 performs at least 2 attempts. -/
theorem uploadLoop2_attempts_ge (t : Nat) (outs : Nat → AttemptOutcome)
    (le : Option String) (sl : List Nat) :
    2 ≤ (uploadLoop t outs 2 2 le sl).attempts := by
  rw [uploadLoop_step2]
  rcases h1 : attemptUpload t (outs 1) with m1 | r1
  · simp [uploadLoop3_attempts]
  · by_cases hs : r1.success <;> by_cases ht : isTerminalClientError r1 <;>
      simp [hs, ht, uploadLoop3_attempts]

/-- A retryable injected outcome never produces a successful or
terminal-client attempt result: the attempt either throws or returns a
failure that the loop classifies as retryable. -/
theorem retryable_step (t : Nat) (o : AttemptOutcome)
    (h : retryableInjectedOutcome o = true) :
    (∃ m, attemptUpload t o = .error m) ∨
    (∃ r, attemptUpload t o = .ok r ∧ r.success = false ∧
      isTerminalClientError r = false) := by
  rcases o with ⟨s, b, x⟩ | _ | m
  · right
    simp only [retryableInjectedOutcome] at h
    have hcase : s = 429 ∨ 500 ≤ s := by
      by_cases hc : s = 429 ∨ 500 ≤ s
      · exact hc
      · simp [hc] at h
    have h201 : ¬ s = 201 := by omega
    refine ⟨{ success := false, statusCode := some s,
              error := some ("HTTP " ++ toString s ++ ": " ++ x) }, ?_, rfl, ?_⟩
    · simp [attemptUpload, h201]
    · simp only [isTerminalClientError]
      have hns : ¬ (400 ≤ s ∧ s < 500 ∧ s ≠ 429) := by omega
      simp [hns]
  · right
    exact ⟨_, rfl, rfl, rfl⟩
  · left
    exact ⟨m, rfl⟩

/-- C2: an attempt at any position answered with a non-429 status in
[400, 500) — reached after only retryable outcomes — ends uploadImage
immediately with that failure at exactly that attempt, with no retry after
it; two retryable outcomes force the full 3 attempts; the injected sequences
[500, 500, 201], [500, 500, 500], [400] and [500, 400] produce exactly 3, 3,
1 and 2 attempts, ending respectively in success, in the aggregated failure
carrying the last HTTP 500 error, and in the terminal 400 failure for the
last two. -/
theorem upload_retry_attempt_counts :
    (∀ (t : Nat) (outs : Nat → AttemptOutcome) (k s : Nat) (b : UploadResponse) (x : String),
      k < MAX_RETRIES → (∀ i, i < k → retryableInjectedOutcome (outs i) = true) →
      outs k = .response s b x → 400 ≤ s → s < 500 → s ≠ 429 →
      uploadImage t outs =
        { result := { success := false, statusCode := some s,
                      error := some ("HTTP " ++ toString s ++ ": " ++ x) },
          attempts := k + 1,
          sleeps := (List.range k).map (fun i => INITIAL_BACKOFF_MS * 2 ^ i) }) ∧
    (∀ (t : Nat) (outs : Nat → AttemptOutcome),
      retryableInjectedOutcome (outs 0) = true →
      retryableInjectedOutcome (outs 1) = true →
      (uploadImage t outs).attempts = 3) ∧
    (∀ t : Nat,
      uploadImage t (outcomesOf [out500, out500, out201]) =
        { result := { success := true, statusCode := some 201, responseBody := some bodyW },
          attempts := 3, sleeps := [1000, 2000] }) ∧
    (∀ t : Nat,
      uploadImage t (outcomesOf [out500, out500, out500]) =
        { result := { success := false,
                      error := some "All 3 upload attempts failed. Last error: HTTP 500: Internal Server Error" },
          attempts := 3, sleeps := [1000, 2000] }) ∧
    (∀ t : Nat,
      uploadImage t (outcomesOf [out400]) =
        { result := { success := false, statusCode := some 400,
                      error := some "HTTP 400: Bad Request" },
          attempts := 1, sleeps := [] }) ∧
    (∀ t : Nat,
      uploadImage t (outcomesOf [out500, out400]) =
        { result := { success := false, statusCode := some 400,
                      error := some "HTTP 400: Bad Request" },
          attempts := 2, sleeps := [1000] }) := by
  refine ⟨?_, ?_, ?_, ?_, ?_, ?_⟩
  · intro t outs k s b x hk hretry hko h400 h500 h429
    have h201 : ¬ s = 201 := by omega
    have hterm : 400 ≤ s ∧ s < 500 ∧ s ≠ 429 := ⟨h400, h500, h429⟩
    have e : uploadImage t outs = uploadLoop t outs 1 3 none [] := rfl
    have hk3 : k < 3 := hk
    interval_cases k
    · rw [e, uploadLoop_step1, hko]
      simp [attemptUpload, h201, isTerminalClientError, hterm]
    · have hr0 := hretry 0 (by omega)
      rw [e, uploadLoop_step1]
      rcases retryable_step t (outs 0) hr0 with ⟨m, hm⟩ | ⟨r, hr, hrs, hrt⟩
      · rw [hm]
        dsimp only
        rw [uploadLoop_step2, hko]
        simp [attemptUpload, h201, isTerminalClientError, hterm, INITIAL_BACKOFF_MS,
          List.range_succ]
      · rw [hr]
        dsimp only
        rw [if_neg (by simp [hrs]), if_neg (by simp [hrt]), uploadLoop_step2, hko]
        simp [attemptUpload, h201, isTerminalClientError, hterm, INITIAL_BACKOFF_MS,
          List.range_succ]
    · have hr0 := hretry 0 (by omega)
      have hr1 := hretry 1 (by omega)
      rw [e, uploadLoop_step1]
      rcases retryable_step t (outs 0) hr0 with ⟨m, hm⟩ | ⟨r, hr, hrs, hrt⟩
      · rw [hm]
        dsimp only
        rw [uploadLoop_step2]
        rcases retryable_step t (outs 1) hr1 with ⟨m1, hm1⟩ | ⟨r1, hr1e, hrs1, hrt1⟩
        · rw [hm1]
          dsimp only
          rw [uploadLoop_step3, hko]
          simp [attemptUpload, h201, isTerminalClientError, hterm, INITIAL_BACKOFF_MS,
            List.range_succ]
        · rw [hr1e]
          dsimp only
          rw [if_neg (by simp [hrs1]), if_neg (by simp [hrt1]), uploadLoop_step3, hko]
          simp [attemptUpload, h201, isTerminalClientError, hterm, INITIAL_BACKOFF_MS,
            List.range_succ]
      · rw [hr]
        dsimp only
        rw [if_neg (by simp [hrs]), if_neg (by simp [hrt]), uploadLoop_step2]
        rcases retryable_step t (outs 1) hr1 with ⟨m1, hm1⟩ | ⟨r1, hr1e, hrs1, hrt1⟩
        · rw [hm1]
          dsimp only
          rw [uploadLoop_step3, hko]
          simp [attemptUpload, h201, isTerminalClientError, hterm, INITIAL_BACKOFF_MS,
            List.range_succ]
        · rw [hr1e]
          dsimp only
          rw [if_neg (by simp [hrs1]), if_neg (by simp [hrt1]), uploadLoop_step3, hko]
          simp [attemptUpload, h201, isTerminalClientError, hterm, INITIAL_BACKOFF_MS,
            List.range_succ]
  · intro t outs h0 h1
    have e : uploadImage t outs = uploadLoop t outs 1 3 none [] := rfl
    rw [e, uploadLoop_step1]
    rcases retryable_step t (outs 0) h0 with ⟨m, hm⟩ | ⟨r, hr, hrs, hrt⟩
    · rw [hm]
      dsimp only
      rw [uploadLoop_step2]
      rcases retryable_step t (outs 1) h1 with ⟨m1, hm1⟩ | ⟨r1, hr1, hrs1, hrt1⟩
      · rw [hm1]
        exact uploadLoop3_attempts t outs (some m1) _
      · rw [hr1]
        simp [hrs1, hrt1, uploadLoop3_attempts]
    · rw [hr]
      dsimp only
      rw [if_neg (by simp [hrs]), if_neg (by simp [hrt]), uploadLoop_step2]
      rcases retryable_step t (outs 1) h1 with ⟨m1, hm1⟩ | ⟨r1, hr1, hrs1, hrt1⟩
      · rw [hm1]
        exact uploadLoop3_attempts t outs (some m1) _
      · rw [hr1]
        simp [hrs1, hrt1, uploadLoop3_attempts]
  · intro t
    rfl
  · intro t
    rfl
  · intro t
    rfl
  · intro t
    rfl

/-- Witness for C2 at the injected sequence [500, 400]: after a retryable
500 on attempt 1, the terminal 400 on attempt 2 stops the run at exactly 2
attempts with that failure and the single 1000 ms backoff. -/
theorem upload_retry_attempt_counts_witness :
    uploadImage 30 (outcomesOf [out500, out400]) =
      { result := { success := false, statusCode := some 400,
                    error := some ("HTTP " ++ toString 400 ++ ": " ++ "Bad Request") },
        attempts := 2, sleeps := [1000] } := by
  have h := upload_retry_attempt_counts.1 30 (outcomesOf [out500, out400]) 1 400 bodyW
    "Bad Request" (by decide)
    (fun i hi => by
      have hz : i = 0 := Nat.lt_one_iff.mp hi
      subst hz
      rfl)
    rfl (by decide) (by decide) (by decide)
  simpa [INITIAL_BACKOFF_MS, List.range_succ] using h

/-- Helper for C9: the sleeps performed by a run that has reached attempt 3
after two backoffs follow the exponential formula. -/
theorem sleeps_formula_tail3 (t : Nat) (outs : Nat → AttemptOutcome) (le : Option String) :
    (uploadLoop t outs 3 1 le [2000, 1000]).sleeps =
      (List.range ((uploadLoop t outs 3 1 le [2000, 1000]).attempts - 1)).map
        (fun i => INITIAL_BACKOFF_MS * 2 ^ i) := by
  rw [uploadLoop_step3]
  rcases h2 : attemptUpload t (outs 2) with m2 | r2
  · simp [INITIAL_BACKOFF_MS, List.range_succ]
  · by_cases hs : r2.success <;> by_cases ht : isTerminalClientError r2 <;>
      simp [hs, ht, INITIAL_BACKOFF_MS, List.range_succ]

/-- Helper for C9: same invariant one step earlier. -/
theorem sleeps_formula_tail2 (t : Nat) (outs : Nat → AttemptOutcome) (le : Option String) :
    (uploadLoop t outs 2 2 le [1000]).sleeps =
      (List.range ((uploadLoop t outs 2 2 le [1000]).attempts - 1)).map
        (fun i => INITIAL_BACKOFF_MS * 2 ^ i) := by
  rw [uploadLoop_step2]
  rcases h1 : attemptUpload t (outs 1) with m1 | r1
  · exact sleeps_formula_tail3 t outs (some m1)
  · by_cases hs : r1.success
    · simp [hs, INITIAL_BACKOFF_MS, List.range_succ]
    · by_cases ht : isTerminalClientError r1
      · simp [hs, ht, INITIAL_BACKOFF_MS, List.range_succ]
      · simpa [hs, ht] using sleeps_formula_tail3 t outs r1.error

/-- C9: for every injected run, the backoff slept before attempt n+1 is
INITIAL_BACKOFF_MS times 2 to the (n-1): the sleep list of a run of k
attempts is exactly [1000 * 2 ^ 0, ..., 1000 * 2 ^ (k-2)], so attempt 1 has
no prior backoff and no backoff follows the final attempt; concretely the
exhausted run sleeps 1000 ms before attempt 2 and 2000 ms before attempt
3. -/
theorem backoff_schedule_exponential :
    (∀ (t : Nat) (outs : Nat → AttemptOutcome),
      (uploadImage t outs).sleeps =
        (List.range ((uploadImage t outs).attempts - 1)).map
          (fun i => INITIAL_BACKOFF_MS * 2 ^ i)) ∧
    (∀ t : Nat,
      (uploadImage t (outcomesOf [out500, out500, out500])).sleeps = [1000, 2000]) := by
  constructor
  · intro t outs
    have e : uploadImage t outs = uploadLoop t outs 1 3 none [] := rfl
    rw [e, uploadLoop_step1]
    rcases h0 : attemptUpload t (outs 0) with m0 | r0
    · exact sleeps_formula_tail2 t outs (some m0)
    · by_cases hs : r0.success
      · simp [hs, INITIAL_BACKOFF_MS, List.range_succ]
      · by_cases ht : isTerminalClientError r0
        · simp [hs, ht, INITIAL_BACKOFF_MS, List.range_succ]
        · simpa [hs, ht] using sleeps_formula_tail2 t outs r0.error
  · intro t
    rfl

/-- C10: uploadImage always resolves to an UploadResult (it is a total
function of the injected outcomes, so the caller never observes an upload
exception); an exception thrown by attempt 1 is caught inside the loop and
retried (at least 2 attempts are then made); thrown then 201 ends in success
after exactly 2 attempts; three thrown errors exhaust the 3 attempts and the
aggregated failure carries the message of the last exception. -/
theorem uploadImage_absorbs_attempt_exceptions :
    (∀ (t : Nat) (outs : Nat → AttemptOutcome) (m : String),
      outs 0 = .thrown m → 2 ≤ (uploadImage t outs).attempts) ∧
    (∀ (t : Nat) (outs : Nat → AttemptOutcome) (m : String) (b : UploadResponse) (x : String),
      outs 0 = .thrown m → outs 1 = .response 201 b x →
      uploadImage t outs =
        { result := { success := true, statusCode := some 201, responseBody := some b },
          attempts := 2, sleeps := [1000] }) ∧
    (∀ t : Nat,
      uploadImage t (outcomesOf
          [.thrown "socket hang up", .thrown "socket hang up", .thrown "ECONNRESET"]) =
        { result := { success := false,
                      error := some "All 3 upload attempts failed. Last error: ECONNRESET" },
          attempts := 3, sleeps := [1000, 2000] }) := by
  refine ⟨?_, ?_, ?_⟩
  · intro t outs m h0
    have e : uploadImage t outs = uploadLoop t outs 1 3 none [] := rfl
    rw [e, uploadLoop_step1, h0]
    exact uploadLoop2_attempts_ge t outs (some m) _
  · intro t outs m b x h0 h1
    have e : uploadImage t outs = uploadLoop t outs 1 3 none [] := rfl
    rw [e, uploadLoop_step1, h0]
    dsimp only [attemptUpload]
    rw [uploadLoop_step2, h1]
    simp [attemptUpload]
  · intro t
    rfl

/-- Witness for C10: a thrown first attempt followed by a 201 ends in
success after exactly 2 attempts with one 1000 ms backoff. -/
theorem uploadImage_absorbs_attempt_exceptions_witness :
    uploadImage 30 (outcomesOf [.thrown "ECONNREFUSED", out201]) =
      { result := { success := true, statusCode := some 201, responseBody := some bodyW },
        attempts := 2, sleeps := [1000] } :=
  uploadImage_absorbs_attempt_exceptions.2.1 30
    (outcomesOf [.thrown "ECONNREFUSED", out201]) "ECONNREFUSED" bodyW "Created" rfl rfl

/-- C4 as stated is false on the code: with an icon configured from a local
path and a filesystem whose read throws, addTextOverlay itself raises — the
readFileSync error propagates through loadIcon, which contains no try/catch,
and out of addTextOverlay — so no image with the text badge is returned by
the call (the orchestrator catches it one level up and drops the whole
overlay). -/
theorem addTextOverlay_raises_on_unreadable_icon_path :
    addTextOverlay overlayEnvThrowing 7 (some 1920) "LFRK 021530Z | 330/9kt | VFR | 4C"
      metarCfgPathIcon = Except.error "EACCES: permission denied" := by
  rfl

/-- C4 amended: for a configured icon whose source fails to resolve without
throwing — no icon configured, no source field set, or a remote URL fetch
that resolves with a non-ok status — addTextOverlay still returns an image
containing the text badge and no icon, and does not raise. -/
theorem overlay_degrades_without_icon (env : OverlayEnv) (base : ImageBuffer)
    (baseWidth : Option Nat) (text : String) (config : MetarConfig) :
    (config.icon = none →
      ∃ r, addTextOverlay env base baseWidth text config = Except.ok r ∧
        r.text = escapeXml text ∧ r.icon = none ∧ r.base = base) ∧
    (∀ ic u st bo, config.icon = some ic → ic.svg = none → ic.path = none →
      ic.url = some u → env.fetchText u = Except.ok (false, st, bo) →
      ∃ r, addTextOverlay env base baseWidth text config = Except.ok r ∧
        r.text = escapeXml text ∧ r.icon = none ∧ r.base = base) ∧
    (∀ ic, config.icon = some ic → ic.svg = none → ic.path = none → ic.url = none →
      ∃ r, addTextOverlay env base baseWidth text config = Except.ok r ∧
        r.text = escapeXml text ∧ r.icon = none ∧ r.base = base) := by
  refine ⟨?_, ?_, ?_⟩
  · intro h
    simp only [addTextOverlay, h, loadIcon]
    exact ⟨_, rfl, rfl, rfl, rfl⟩
  · intro ic u st bo hic hsvg hpath hurl hfetch
    simp only [addTextOverlay, hic, loadIcon, hsvg, hpath, hurl, hfetch, Bool.not_false]
    exact ⟨_, rfl, rfl, rfl, rfl⟩
  · intro ic hic hsvg hpath hurl
    simp only [addTextOverlay, hic, loadIcon, hsvg, hpath, hurl]
    exact ⟨_, rfl, rfl, rfl, rfl⟩

/-- Witness for the amended C4: a remote icon URL answered with a 404 still
yields the badge, without the icon and without raising. -/
theorem overlay_degrades_without_icon_witness :
    ∃ r, addTextOverlay overlayEnvNotFound 5 none "VFR" metarCfgUrlIcon = Except.ok r ∧
      r.text = escapeXml "VFR" ∧ r.icon = none ∧ r.base = 5 :=
  (overlay_degrades_without_icon overlayEnvNotFound 5 none "VFR" metarCfgUrlIcon).2.1
    { url := some "https://example.com/wind.svg" } "https://example.com/wind.svg"
    404 "Not Found" rfl rfl rfl rfl rfl

end AeroPiCam
